import Mathlib

/-!
Shallow embedding of the gistpad editor commands
(`src/commands/editor.ts`) and of the configuration accessor
(`src/config/config.ts`), together with proofs about the Gist
target-selection logic (`promptForGistSelection`) and the paste
filtering logic (`pasteGistFile`).

The embedding models the decision logic as pure functions over explicit
inputs: the candidate file batch, the store snapshot, the user's
selections (an `Option` is `none` when the user cancels a prompt), and
the workspace configuration.  Asynchronous dispatches (file writes,
Gist-creation requests) are reified as data so that their number and
addressing can be stated.
-/

/-- Candidate file handed to `promptForGistSelection`: a
`(filename, content)` pair (editor.ts builds these with the `!`
non-null assertions, so both fields are present strings). -/
structure GistFile where
  filename : String
  content : String
deriving DecidableEq, Repr

/-- Summary of a Gist as read from the external store
(`store.gists`): an opaque id, an optional description and the set of
its file names (`Object.keys(gist.files)`, in object-key order). -/
structure GistSummary where
  id : String
  description : Option String
  files : List String
deriving DecidableEq, Repr

/-- Quick-pick list entry built by `promptForGistSelection`
(editor.ts lines 58-66): a label, an optional description, an
optional `id` (absent on the two create-new sentinel entries) and the
`alwaysShow` flag carried by the sentinel entries. -/
structure GistQuickPickItem where
  label : String
  description : Option String := none
  id : Option String := none
  alwaysShow : Bool := false
deriving DecidableEq, Repr

/-- Label of the create-new-public-Gist sentinel (editor.ts line 37). -/
def CREATE_PUBLIC_GIST_ITEM : String := "$(gist-new) Create new public Gist..."

/-- Label of the create-new-secret-Gist sentinel (editor.ts line 38). -/
def CREATE_SECRET_GIST_ITEM : String := "$(gist-private) Create new secret Gist..."

/-- The two fixed create-new sentinel entries, public first
(editor.ts lines 39-42). -/
def CREATE_GIST_ITEMS : List GistQuickPickItem :=
  [{ label := CREATE_PUBLIC_GIST_ITEM, alwaysShow := true },
   { label := CREATE_SECRET_GIST_ITEM, alwaysShow := true }]

/-- Mapping of one store Gist to a quick-pick entry (editor.ts lines
58-64).  `getGistLabel` and `getGistDescription` live in `src/utils`,
outside the given sources; they are passed in as opaque parameters. -/
def gistToQuickPickItem (getGistLabel : GistSummary → String)
    (getGistDescription : GistSummary → Option String)
    (gist : GistSummary) : GistQuickPickItem :=
  { label := getGistLabel gist
    description := getGistDescription gist
    id := some gist.id }

/-- The selection list shown by `promptForGistSelection` (editor.ts
lines 58-70): the store Gists are mapped to quick-pick entries and the
two sentinel entries are then `unshift`ed in front of them. -/
def buildSelectionList (getGistLabel : GistSummary → String)
    (getGistDescription : GistSummary → Option String)
    (gists : List GistSummary) : List GistQuickPickItem :=
  CREATE_GIST_ITEMS ++
    gists.map (gistToQuickPickItem getGistLabel getGistDescription)

/-- A single asynchronous file write dispatched on the append path
(editor.ts lines 82-87): addressed by `fileNameToUri(gist.id, file.filename)`,
i.e. by the `(gistId, filename)` pair, with the file's content (sent
through the external `stringToByteArray` encoding) as payload. -/
structure WriteRequest where
  gistId : String
  filename : String
  content : String
deriving DecidableEq, Repr

/-- The single Gist-creation request issued by `newGistWithFiles`
(editor.ts lines 44-55): `newGist(files, isPublic, description, false)`,
the last argument being the not-a-notebook flag. -/
structure NewGistRequest where
  files : List GistFile
  isPublic : Bool
  description : Option String
  isNotebook : Bool
deriving DecidableEq, Repr

/-- What the accept handler of `promptForGistSelection` dispatches:
either the batch of per-file writes (append path) or one creation
request (create path). -/
inductive GistAction where
  | writes (reqs : List WriteRequest)
  | create (req : NewGistRequest)
deriving DecidableEq, Repr

/-- Number of file writes dispatched by an action. -/
def GistAction.writeCount : GistAction → Nat
  | .writes reqs => reqs.length
  | .create _ => 0

/-- Number of Gist-creation requests dispatched by an action. -/
def GistAction.createCount : GistAction → Nat
  | .writes _ => 0
  | .create _ => 1

/-- JavaScript truthiness of the optional `id` field as tested by
`if (gist.id)` (editor.ts line 77): `undefined` and the empty string
are falsy, every other string is truthy. -/
def jsTruthy : Option String → Bool
  | none => false
  | some s => !s.isEmpty

/-- Body of `newGistWithFiles` (editor.ts lines 44-55): after the
description prompt, exactly one `newGist` request is started, carrying
the files, the visibility, the entered description and the
not-a-notebook flag fixed to `false`. -/
def newGistWithFiles (isPublic : Bool) (files : List GistFile)
    (description : Option String) : NewGistRequest :=
  { files := files, isPublic := isPublic,
    description := description, isNotebook := false }

/-- Body of the `onDidAccept` handler of `promptForGistSelection`
(editor.ts lines 72-93), given the accepted item, the candidate file
batch and the description later entered for the create path.  If the
item's `id` is truthy, one write per file is dispatched, addressed by
`(gist.id, file.filename)` with the file's content; otherwise the
visibility is decided by comparing the label against the public
sentinel's label and `newGistWithFiles` is invoked. -/
def handleAccept (item : GistQuickPickItem) (files : List GistFile)
    (description : Option String) : GistAction :=
  if jsTruthy item.id then
    .writes (files.map fun file =>
      { gistId := item.id.getD "", filename := file.filename,
        content := file.content })
  else
    .create (newGistWithFiles (item.label == CREATE_PUBLIC_GIST_ITEM)
      files description)

/-- Outcome of the whole `promptForGistSelection` interaction
(editor.ts lines 57-97): the quick pick is shown and actions are
dispatched only inside the `onDidAccept` handler, so if the user never
accepts an item (`selection = none`) no action is dispatched. -/
def promptForGistSelection (files : List GistFile)
    (selection : Option GistQuickPickItem)
    (description : Option String) : Option GistAction :=
  selection.map fun item => handleAccept item files description

/-- Number of file writes dispatched by a prompt outcome. -/
def promptWriteCount (outcome : Option GistAction) : Nat :=
  match outcome with
  | none => 0
  | some a => a.writeCount

/-- Number of Gist-creation requests dispatched by a prompt outcome. -/
def promptCreateCount (outcome : Option GistAction) : Nat :=
  match outcome with
  | none => 0
  | some a => a.createCount

/-- Relates truthiness of an optional string to its value. -/
theorem jsTruthy_some_iff (s : String) : jsTruthy (some s) = true ↔ s ≠ "" := by
  simp only [jsTruthy, Bool.not_eq_true', Bool.eq_false_iff, Ne]
  exact not_congr (String.isEmpty_iff s)

/-- Claim C1: when the accepted item carries a (truthy) Gist id, the
dispatched action is exactly the batch of writes obtained by mapping
the candidate files, so the number of writes equals the number of
input files and the write at each position is addressed by
`(selected gist id, file.filename)` with that file's content. -/
theorem handleAccept_existing_gist_writes
    (item : GistQuickPickItem) (files : List GistFile)
    (description : Option String) (gid : String)
    (hid : item.id = some gid) (hne : gid ≠ "") :
    handleAccept item files description =
      .writes (files.map fun file =>
        { gistId := gid, filename := file.filename,
          content := file.content }) ∧
    (handleAccept item files description).writeCount = files.length := by
  have htruthy : jsTruthy (some gid) = true := (jsTruthy_some_iff gid).mpr hne
  constructor
  · simp [handleAccept, hid, htruthy]
  · simp [handleAccept, hid, htruthy, GistAction.writeCount]

/-- Witness for C1 at a concrete two-file batch and Gist id. -/
theorem handleAccept_existing_gist_writes_witness :
    handleAccept { label := "My Gist", id := some "abc123" }
        [⟨"a.txt", "hello"⟩, ⟨"b.md", "world"⟩] (some "desc") =
      .writes [⟨"abc123", "a.txt", "hello"⟩, ⟨"abc123", "b.md", "world"⟩] ∧
    (handleAccept { label := "My Gist", id := some "abc123" }
        [⟨"a.txt", "hello"⟩, ⟨"b.md", "world"⟩] (some "desc")).writeCount = 2 := by
  have h := handleAccept_existing_gist_writes
    { label := "My Gist", id := some "abc123" }
    [⟨"a.txt", "hello"⟩, ⟨"b.md", "world"⟩] (some "desc") "abc123"
    rfl (by decide)
  exact ⟨h.1, h.2⟩

/-- Claim C2: for a non-empty file batch, accepting the public
sentinel dispatches exactly one creation request with
`isPublic = true`, and accepting the secret sentinel dispatches
exactly one creation request with `isPublic = false`; both requests
carry the candidate files, the entered description and the
not-a-notebook flag `false`. -/
theorem handleAccept_sentinel_create
    (files : List GistFile) (description : Option String)
    (_hne : files ≠ []) :
    handleAccept { label := CREATE_PUBLIC_GIST_ITEM, alwaysShow := true }
        files description =
      .create { files := files, isPublic := true,
                description := description, isNotebook := false } ∧
    (handleAccept { label := CREATE_PUBLIC_GIST_ITEM, alwaysShow := true }
        files description).createCount = 1 ∧
    handleAccept { label := CREATE_SECRET_GIST_ITEM, alwaysShow := true }
        files description =
      .create { files := files, isPublic := false,
                description := description, isNotebook := false } ∧
    (handleAccept { label := CREATE_SECRET_GIST_ITEM, alwaysShow := true }
        files description).createCount = 1 := by
  refine ⟨?_, rfl, ?_, rfl⟩
  · simp [handleAccept, jsTruthy, newGistWithFiles]
  · simp [handleAccept, jsTruthy, newGistWithFiles,
      CREATE_SECRET_GIST_ITEM, CREATE_PUBLIC_GIST_ITEM]

/-- Witness for C2 at a concrete one-file batch. -/
theorem handleAccept_sentinel_create_witness :
    ([⟨"a.txt", "hi"⟩] : List GistFile) ≠ [] ∧
    handleAccept { label := CREATE_PUBLIC_GIST_ITEM, alwaysShow := true }
        [⟨"a.txt", "hi"⟩] none =
      .create { files := [⟨"a.txt", "hi"⟩], isPublic := true,
                description := none, isNotebook := false } := by
  refine ⟨by decide, ?_⟩
  exact (handleAccept_sentinel_create [⟨"a.txt", "hi"⟩] none (by decide)).1

/-- Claim C7: cancelling the initial selection list (no accepted item)
dispatches zero creation requests and zero writes, for every input
batch and description. -/
theorem promptForGistSelection_cancel_no_action
    (files : List GistFile) (description : Option String) :
    promptForGistSelection files none description = none ∧
    promptWriteCount (promptForGistSelection files none description) = 0 ∧
    promptCreateCount (promptForGistSelection files none description) = 0 := by
  exact ⟨rfl, rfl, rfl⟩

/-- Claim C9: the selection list is always the public sentinel, then
the secret sentinel, then the Gist-derived entries in exactly the
order the store returns them, for every labeling of the Gists. -/
theorem buildSelectionList_shape
    (getGistLabel : GistSummary → String)
    (getGistDescription : GistSummary → Option String)
    (gists : List GistSummary) :
    buildSelectionList getGistLabel getGistDescription gists =
      { label := CREATE_PUBLIC_GIST_ITEM, alwaysShow := true } ::
      { label := CREATE_SECRET_GIST_ITEM, alwaysShow := true } ::
      gists.map (gistToQuickPickItem getGistLabel getGistDescription) := by
  rfl

/-- Claim C10: the accept handler tests the `id` field for truthiness,
not presence, so an accepted item whose `id` is the empty string is
routed to the create path, with visibility decided by comparing its
label against the public sentinel's label. -/
theorem handleAccept_empty_id_creates
    (label : String) (itemDescription : Option String) (alwaysShow : Bool)
    (files : List GistFile) (description : Option String) :
    handleAccept
        { label := label, description := itemDescription,
          id := some "", alwaysShow := alwaysShow } files description =
      .create { files := files,
                isPublic := label == CREATE_PUBLIC_GIST_ITEM,
                description := description, isNotebook := false } := by
  simp [handleAccept, jsTruthy, newGistWithFiles,
    show "".isEmpty = true from rfl]

/-- The `gistpad.languageMappings` configuration value: a mapping from
editor language ids to lists of allowed (dotted) file extensions,
embedded as an association list. -/
def LanguageMappings : Type := List (String × List String)

/-- A JavaScript `Promise` wrapping a value: `config.get`
(src/config/config.ts lines 5-12) is declared `async`, so calling it
yields a `Promise` of the configured value, not the value itself. -/
structure JsPromise (α : Type) where
  value : α

/-- Embedding of the `config.get("languageMappings")` call on
editor.ts line 190: it returns a `Promise` wrapping the configured
mapping, because `get` is `async` and the call site does not `await`
it. -/
def configGetLanguageMappings (cfg : LanguageMappings) :
    JsPromise LanguageMappings :=
  { value := cfg }

/-- Property access `p[key]` on a `Promise` object by a language-id
key: a `Promise` carries no data properties (its prototype only has
the methods `then`, `catch` and `finally`, none of which is an editor
language id), so the lookup yields `undefined`, embedded as `none`,
for every language id. -/
def JsPromise.getProp (_p : JsPromise α) (_key : String) :
    Option (List String) :=
  none

/-- Embedding of editor.ts line 190,
`config.get("languageMappings")[detectedLanguage] || null`: the
property lookup happens on the un-awaited `Promise`; `undefined`
collapses to `null` (`none`), and an array value (always truthy in
JavaScript, even when empty) would be kept. -/
def allowedExtensionsOf (cfg : LanguageMappings)
    (detectedLanguage : String) : Option (List String) :=
  match (configGetLanguageMappings cfg).getProp detectedLanguage with
  | some exts => some exts
  | none => none

/-- Modelled from the spec: the lookup
`languageMappings[detectedLanguage] || null` as the spec describes it
(and as the code intends it, had `config.get` been awaited): the
configured extension list for the detected language, or the
`null` match-everything sentinel when the language is absent. -/
def lookupLanguageMappings (cfg : LanguageMappings)
    (detectedLanguage : String) : Option (List String) :=
  match cfg.lookup detectedLanguage with
  | some exts => some exts
  | none => none

/-- Suffix of a character list starting at its last dot, the dot
included; `none` when no dot occurs. -/
def lastDotSuffix : List Char → Option (List Char)
  | [] => none
  | c :: rest =>
    match lastDotSuffix rest with
    | some ext => some ext
    | none => if c = '.' then some (c :: rest) else none

/-- Modelled from the spec: `getFileExtension` lives in `src/utils`,
outside the given sources.  Per the spec it extracts the extension of
a filename, the text from the last `.` on; the leading dot is kept so
the result is comparable with the configured dotted extensions such as
`".py"` (and with their underscore-augmented variants such as
`".py_"`). -/
def getFileExtension (filename : String) : String :=
  match lastDotSuffix filename.toList with
  | some ext => String.mk ext
  | none => ""

/-- Embedding of editor.ts lines 195-198: the allowed-extension list
is extended with an underscore-suffixed variant of each of its
entries, `allowedExtensions.push(...allowedExtensions.map(e => e + "_"))`. -/
def augmentAllowedExtensions (exts : List String) : List String :=
  exts ++ exts.map fun fileExtension => fileExtension ++ "_"

/-- Quick-pick entry built by `pasteGistFile` for one store Gist
(editor.ts lines 175-180): label, description, the Gist id and the
Gist's file names. -/
structure PasteGistItem where
  label : String
  description : Option String
  id : String
  files : List String
deriving DecidableEq, Repr

/-- The filter predicate of editor.ts lines 201-206: with the `null`
sentinel every Gist passes; otherwise a Gist passes when some of its
files has an extension contained in the (already augmented) allowed
list. -/
def gistMatchesExtensions (allowedExtensions : Option (List String))
    (gist : PasteGistItem) : Bool :=
  match allowedExtensions with
  | none => true
  | some exts => gist.files.any fun file => exts.contains (getFileExtension file)

/-- The Gist filter of editor.ts lines 201-206 applied to the item
list. -/
def filterGistItems (allowedExtensions : Option (List String))
    (items : List PasteGistItem) : List PasteGistItem :=
  items.filter (gistMatchesExtensions allowedExtensions)

/-- The whole filtering prelude of `pasteGistFile` (editor.ts lines
190-206) as the code executes it: lookup on the un-awaited `Promise`,
augmentation when the lookup produced a list, then the filter. -/
def pasteGistFilter (cfg : LanguageMappings) (detectedLanguage : String)
    (items : List PasteGistItem) : List PasteGistItem :=
  filterGistItems
    ((allowedExtensionsOf cfg detectedLanguage).map augmentAllowedExtensions)
    items

/-- Modelled from the spec: the same filtering prelude with the lookup
the spec describes (configuration consulted directly), used to state
what the code was intended to do at the inputs where the two
disagree. -/
def pasteGistFilterIntended (cfg : LanguageMappings)
    (detectedLanguage : String) (items : List PasteGistItem) :
    List PasteGistItem :=
  filterGistItems
    ((lookupLanguageMappings cfg detectedLanguage).map augmentAllowedExtensions)
    items

/-- One full run of the filtering prelude with the stored
configuration threaded as explicit state.  The in-place `push` of
editor.ts line 197 mutates the array produced by the line-190 lookup;
that lookup reads a property of the un-awaited `Promise` and so never
aliases the stored configuration, hence the configuration comes back
unchanged (the `some` branch is in fact unreachable, see
`allowedExtensionsOf_eq_none`). -/
def pasteGistFilterRun (cfg : LanguageMappings) (detectedLanguage : String)
    (items : List PasteGistItem) :
    List PasteGistItem × LanguageMappings :=
  match allowedExtensionsOf cfg detectedLanguage with
  | none => (filterGistItems none items, cfg)
  | some exts =>
    (filterGistItems (some (augmentAllowedExtensions exts)) items, cfg)

/-- The line-190 lookup always produces the `null` sentinel, whatever
the configuration and language are, because it indexes a `Promise`. -/
theorem allowedExtensionsOf_eq_none (cfg : LanguageMappings)
    (detectedLanguage : String) :
    allowedExtensionsOf cfg detectedLanguage = none := rfl

/-- With the `null` sentinel the filter keeps every item. -/
theorem filterGistItems_none (items : List PasteGistItem) :
    filterGistItems none items = items := by
  simp [filterGistItems, gistMatchesExtensions, List.filter_eq_self]

/-- The file-resolution step of `pasteGistFile` (editor.ts lines
218-235) after a Gist was chosen, given the decoded file names of the
chosen Gist and the user's choice at the second quick pick (`none`
when cancelled).  First component: whether the second quick pick is
shown at all; second component: the file whose content is then read
from the store (`none` means the command returned before the read). -/
def resolvePasteFile (fileItems : List String) (choice : Option String) :
    Bool × Option String :=
  if fileItems.length = 1 then
    (false, fileItems.head?)
  else
    (true,
      match choice with
      | some f => if f.isEmpty then none else some f
      | none => none)

/-- Claim C4: for every configured language map and every detected
language, the line-190 lookup yields the `null` match-everything
sentinel (the `config.get` call is `async` and its `Promise` is
indexed without `await`), so the Gist filter passes every Gist
unchanged. -/
theorem pasteGistFilter_always_passes_all (cfg : LanguageMappings)
    (detectedLanguage : String) (items : List PasteGistItem) :
    allowedExtensionsOf cfg detectedLanguage = none ∧
    pasteGistFilter cfg detectedLanguage items = items := by
  refine ⟨rfl, ?_⟩
  show filterGistItems none items = items
  exact filterGistItems_none items

/-- Claim C3, divergence record: with `languageMappings`
`{ "python": [".py"] }` and detected language `"python"`, the code as
executed keeps the Gist whose only file is `"notes.txt"` (the
un-awaited `Promise` makes `allowedExtensions` null and disables
filtering), while the filter the spec and the surrounding code intend
drops `"notes.txt"` and keeps `"notes.py_"` through the augmented
extension `".py_"`. -/
theorem pasteGistFilter_python_divergence :
    pasteGistFilter [("python", [".py"])] "python"
        [{ label := "txt notes", description := none, id := "g1",
           files := ["notes.txt"] }] =
      [{ label := "txt notes", description := none, id := "g1",
         files := ["notes.txt"] }] ∧
    pasteGistFilterIntended [("python", [".py"])] "python"
        [{ label := "txt notes", description := none, id := "g1",
           files := ["notes.txt"] }] = [] ∧
    pasteGistFilterIntended [("python", [".py"])] "python"
        [{ label := "py notes", description := none, id := "g2",
           files := ["notes.py_"] }] =
      [{ label := "py notes", description := none, id := "g2",
         files := ["notes.py_"] }] :=
  ⟨rfl, by decide, by decide⟩

/-- Claim C5: when the detected language is absent from the configured
map, every Gist passes the filter; this holds for the code as executed
and also for the intended lookup, where absence produces the `null`
match-everything sentinel rather than an empty allow-list. -/
theorem pasteGistFilter_absent_language_passes_all
    (cfg : LanguageMappings) (detectedLanguage : String)
    (items : List PasteGistItem)
    (habsent : lookupLanguageMappings cfg detectedLanguage = none) :
    pasteGistFilter cfg detectedLanguage items = items ∧
    pasteGistFilterIntended cfg detectedLanguage items = items := by
  constructor
  · show filterGistItems none items = items
    exact filterGistItems_none items
  · rw [pasteGistFilterIntended, habsent]
    exact filterGistItems_none items

/-- Witness for C5: `"plaintext"` is absent from a map that only
binds `"python"`, and a text-file Gist passes. -/
theorem pasteGistFilter_absent_language_witness :
    lookupLanguageMappings [("python", [".py"])] "plaintext" = none ∧
    pasteGistFilter [("python", [".py"])] "plaintext"
        [{ label := "n", description := none, id := "g1",
           files := ["notes.txt"] }] =
      [{ label := "n", description := none, id := "g1",
         files := ["notes.txt"] }] := by
  refine ⟨by decide, ?_⟩
  exact (pasteGistFilter_absent_language_passes_all
    [("python", [".py"])] "plaintext"
    [{ label := "n", description := none, id := "g1",
       files := ["notes.txt"] }] (by decide)).1

/-- Claim C6: running the filtering prelude leaves the stored
configuration unchanged, and running it a second time with the same
detected language, the same Gist set and the configuration left by the
first run yields the same filtered result as the first run. -/
theorem pasteGistFilterRun_idempotent (cfg : LanguageMappings)
    (detectedLanguage : String) (items : List PasteGistItem) :
    (pasteGistFilterRun cfg detectedLanguage items).2 = cfg ∧
    (pasteGistFilterRun (pasteGistFilterRun cfg detectedLanguage items).2
        detectedLanguage items).1 =
      (pasteGistFilterRun cfg detectedLanguage items).1 :=
  ⟨rfl, rfl⟩

/-- Claim C8: when the chosen Gist has exactly one (decoded) file the
second quick pick is not shown and that file is selected
automatically, whatever the would-be choice is; when the Gist has more
than one file and the user cancels the second quick pick, the command
returns before any file content is read from the store. -/
theorem pasteGistFile_file_resolution
    (decode : String → String) (fname : String) (choice : Option String)
    (fileItems : List String) (hlen : 1 < fileItems.length) :
    resolvePasteFile ([fname].map decode) choice = (false, some (decode fname)) ∧
    resolvePasteFile fileItems none = (true, none) := by
  constructor
  · rfl
  · have hne : fileItems.length ≠ 1 := by omega
    simp [resolvePasteFile, hne]

/-- Witness for C8 at a one-file Gist and at a cancelled two-file
Gist. -/
theorem pasteGistFile_file_resolution_witness :
    1 < (["x.md", "y.md"] : List String).length ∧
    resolvePasteFile (["a.txt"].map (fun s => s)) (some "z") =
      (false, some "a.txt") ∧
    resolvePasteFile ["x.md", "y.md"] none = (true, none) := by
  refine ⟨by decide, ?_, ?_⟩
  · exact (pasteGistFile_file_resolution (fun s => s) "a.txt" (some "z")
      ["x.md", "y.md"] (by decide)).1
  · exact (pasteGistFile_file_resolution (fun s => s) "a.txt" (some "z")
      ["x.md", "y.md"] (by decide)).2
